import Mathlib

/-! Shallow embedding of `src/js/book-manager.js` (class `BookManager`) from the
karaage-virtual-bookshelf repository, together with theorems settling the
frozen claims about its specification.

Modelling conventions:
* A JS value that may be `undefined` (or `null`) is an `Option`; `undefined`
  and `null` are conflated into `none` (no claim distinguishes them).
* JS string truthiness (`undefined`, `null` and `""` are falsy) is `truthyS`;
  numeric truthiness (`0` falsy) is `truthyI`; `a || b` is `jsOrS` / `jsOrI`.
* `Date.now()` is passed in explicitly as a `now : Int` parameter; a single
  operation uses one value of `now` for all its timestamps.
* External I/O (fetching `kindle.json`, the Google Books API, URL-pattern
  extraction, `localStorage`) is modelled by passing the already-obtained
  result in as a parameter; persistence writes (`saveLibrary`) are modelled,
  where a claim needs them, as the list of snapshots written.
* In-place mutation of the record returned by `Array.prototype.find` is
  modelled by `updateFirst` (replace the first record matching the
  predicate); `findIndex`/`splice` hard-deletion by `removeFirst`.
-/

namespace VirtualBookshelf

/-- JS truthiness of a possibly-absent string: `undefined`, `null`, `""` are falsy. -/
def truthyS : Option String → Bool
  | none => false
  | some s => !(s == "")

/-- JS truthiness of a possibly-absent number: `undefined`, `null`, `0` are falsy. -/
def truthyI : Option Int → Bool
  | none => false
  | some i => !(i == 0)

/-- JS `a || b` on possibly-absent strings. -/
def jsOrS (a b : Option String) : Option String :=
  if truthyS a then a else b

/-- JS `a || b` on possibly-absent numbers. -/
def jsOrI (a b : Option Int) : Option Int :=
  if truthyI a then a else b

/-- JS `s.toLowerCase()` (ASCII case folding). -/
def jsToLower (s : String) : String :=
  String.mk (s.toList.map Char.toLower)

/-- JS `s.trim()`: strip leading and trailing whitespace. -/
def jsTrim (s : String) : String :=
  String.mk (((s.toList.dropWhile Char.isWhitespace).reverse.dropWhile Char.isWhitespace).reverse)

/-- JS `hay.includes(need)` : substring containment. -/
def jsIncludes (hay need : String) : Bool :=
  decide (need.toList <:+: hay.toList)

/-- An incoming raw record (current or legacy shape): exactly the fields that
`book-manager.js` ever reads from an input object; every field may be absent. -/
structure RawBook where
  bookId : Option String := none
  asin : Option String := none
  title : Option String := none
  authors : Option String := none
  acquiredTime : Option Int := none
  readStatus : Option String := none
  productImage : Option String := none
  source : Option String := none
  addedDate : Option Int := none
  memo : Option String := none
  rating : Option Int := none
  updatedBookId : Option String := none
  updatedAsin : Option String := none
  deriving Repr, DecidableEq

/-- A canonical stored book record, as produced by `normalizeBook`,
`addBookManually`, `fetchFromGoogleBooksById`, or an import. -/
structure Book where
  bookId : Option String := none
  title : Option String := none
  authors : Option String := none
  acquiredTime : Option Int := none
  readStatus : Option String := none
  productImage : Option String := none
  source : Option String := none
  addedDate : Option Int := none
  memo : Option String := none
  rating : Option Int := none
  updatedBookId : Option String := none
  deriving Repr, DecidableEq

/-- `library.metadata` of the `BookManager` constructor. -/
structure Metadata where
  lastImportDate : Option Int := none
  totalBooks : Nat := 0
  manuallyAdded : Nat := 0
  importedFromKindle : Nat := 0
  deriving Repr, DecidableEq

/-- `this.library`: the in-memory collection plus its metadata counters. -/
structure Library where
  books : List Book := []
  metadata : Metadata := {}
  deriving Repr, DecidableEq

/-- The state established by the `BookManager` constructor: empty collection,
all counters zero. -/
def emptyLibrary : Library := {}

/-- `normalizeBook(book, key)`: `bookId: book.bookId || book.asin || key`,
plain copies of the core fields, spread-if-truthy for `memo`, `rating`, and
the two `updatedBookId` spreads (the legacy `updatedAsin` spread comes second
in the object literal, so it wins when both are truthy). -/
def normalizeBook (book : RawBook) (key : Option String) : Book :=
  { bookId := jsOrS (jsOrS book.bookId book.asin) key
    title := book.title
    authors := book.authors
    acquiredTime := book.acquiredTime
    readStatus := book.readStatus
    productImage := book.productImage
    source := book.source
    addedDate := book.addedDate
    memo := if truthyS book.memo then book.memo else none
    rating := if truthyI book.rating then book.rating else none
    updatedBookId :=
      if truthyS book.updatedAsin then book.updatedAsin
      else if truthyS book.updatedBookId then book.updatedBookId
      else none }

/-- `shouldUpdateBook(existingBook, newBook)`: strict-inequality comparison of
the four fields `acquiredTime`, `readStatus`, `title`, `productImage`. -/
def shouldUpdateBook (existingBook : Book) (newBook : RawBook) : Bool :=
  (existingBook.acquiredTime != newBook.acquiredTime) ||
  (existingBook.readStatus != newBook.readStatus) ||
  (existingBook.title != newBook.title) ||
  (existingBook.productImage != newBook.productImage)

/-- `isValidASIN(id)`: `/^[A-Z0-9]{10}$/.test(id)`. -/
def isValidASIN (s : String) : Bool :=
  s.length == 10 && s.toList.all (fun c => (decide ('A' ≤ c) && decide (c ≤ 'Z')) || c.isDigit)

/-- `isValidASIN` applied to a possibly-absent value (the regex cannot match
the coerced string "undefined", which contains lowercase letters). -/
def isValidASINOpt : Option String → Bool
  | none => false
  | some s => isValidASIN s

/-- `isValidBookId(bookId)`: truthy and non-empty after trimming. -/
def isValidBookId : Option String → Bool
  | none => false
  | some s => !(s == "") && !(jsTrim s == "")

/-- The Amazon cover-image URL synthesized for a marketplace identifier. -/
def amazonImageUrl (s : String) : String :=
  "https://images-na.ssl-images-amazon.com/images/P/" ++ s ++ ".01.L.jpg"

/-- The identifier a batch candidate resolves to: `book.bookId || book.asin`. -/
def resolveId (c : RawBook) : Option String :=
  jsOrS c.bookId c.asin

/-- Replace the first element satisfying `p` by its image under `f`
(in-place mutation of the object returned by `Array.prototype.find`). -/
def updateFirst (p : Book → Bool) (f : Book → Book) : List Book → List Book
  | [] => []
  | b :: rest => if p b then f b :: rest else b :: updateFirst p f rest

/-- Remove the first element satisfying `p` (`findIndex` + `splice(i, 1)`). -/
def removeFirst (p : Book → Bool) : List Book → List Book
  | [] => []
  | b :: rest => if p b then rest else b :: removeFirst p rest

/-- Number of records whose `source === s`. -/
def countSource (s : String) (books : List Book) : Nat :=
  books.countP (fun b => b.source == some s)

/-- Result summary of `importFromKindle`: the object literal has exactly the
four counters `total`, `added`, `updated`, `skipped` (no error bucket). -/
structure KindleImportResults where
  total : Nat := 0
  added : Nat := 0
  updated : Nat := 0
  skipped : Nat := 0
  deriving Repr, DecidableEq

/-- The `Object.assign(existingBook, {...})` of the merge-with-update path:
overwrites `title`, `authors`, `acquiredTime`, `readStatus`, `productImage`. -/
def applyKindleUpdate (c : RawBook) (b : Book) : Book :=
  { b with
    title := c.title
    authors := c.authors
    acquiredTime := c.acquiredTime
    readStatus := c.readStatus
    productImage := c.productImage }

/-- The record pushed for a fresh candidate in either bulk-import mode:
`{...normalizeBook(book, bookId), source: 'kindle_import', addedDate: Date.now()}`. -/
def mkKindleBook (c : RawBook) (bid : Option String) (now : Int) : Book :=
  { normalizeBook c bid with source := some "kindle_import", addedDate := some now }

/-- One iteration of the `importFromKindle` loop body. -/
def importKindleStep (now : Int) (st : List Book × KindleImportResults) (c : RawBook) :
    List Book × KindleImportResults :=
  let bid := resolveId c
  match st.1.find? (fun b => b.bookId == bid) with
  | some e =>
    if shouldUpdateBook e c then
      (updateFirst (fun b => b.bookId == bid) (applyKindleUpdate c) st.1,
       { st.2 with updated := st.2.updated + 1 })
    else
      (st.1, { st.2 with skipped := st.2.skipped + 1 })
  | none =>
    (st.1 ++ [mkKindleBook c bid now], { st.2 with added := st.2.added + 1 })

/-- `importFromKindle`: merge-with-update bulk import. The batch is the parsed
JSON contents (file input or fetched `data/kindle.json`); after the loop,
`lastImportDate`, `totalBooks`, `importedFromKindle` are recomputed
(`manuallyAdded` is left as-is), then one snapshot is saved. -/
def importFromKindle (batch : List RawBook) (now : Int) (lib : Library) :
    Library × KindleImportResults :=
  let st := batch.foldl (importKindleStep now)
    (lib.books, { total := batch.length, added := 0, updated := 0, skipped := 0 })
  ({ books := st.1
     metadata := { lib.metadata with
                   lastImportDate := some now
                   totalBooks := st.1.length
                   importedFromKindle := countSource "kindle_import" st.1 } },
   st.2)

/-- A candidate is settled in a collection when the first record carrying its
resolved identifier already agrees with it on the four compared fields, so a
merge-with-update pass will count it as `skipped`. -/
def kindleSettled (books : List Book) (c : RawBook) : Prop :=
  ∃ e, books.find? (fun b => b.bookId == resolveId c) = some e ∧ shouldUpdateBook e c = false

/-- An entry of the `duplicates` / `errors` lists of `importSelectedBooks`. -/
structure ImportEntry where
  title : Option String := none
  bookId : Option String := none
  reason : String := ""
  deriving Repr, DecidableEq

/-- Result of `importSelectedBooks`. -/
structure SelectedImportResult where
  success : Bool := true
  total : Nat := 0
  added : Nat := 0
  updated : Nat := 0
  skipped : Nat := 0
  imported : List Book := []
  duplicates : List ImportEntry := []
  errors : List ImportEntry := []
  deriving Repr, DecidableEq

/-- Loop state of `importSelectedBooks`. -/
structure SelState where
  books : List Book := []
  imported : List Book := []
  duplicates : List ImportEntry := []
  errors : List ImportEntry := []
  deriving Repr, DecidableEq

/-- One iteration of the `importSelectedBooks` loop body. `exIds` is the
`existingBookIds` set built once before the loop and never extended inside it;
inside the modelled domain (well-formed candidate objects) nothing in the
`try` body can throw, so the `catch` branch filling `errors` is unreachable. -/
def importSelectedStep (now : Int) (exIds : List (Option String)) (st : SelState) (c : RawBook) :
    SelState :=
  let bid := resolveId c
  if exIds.contains bid then
    { st with duplicates := st.duplicates ++ [{ title := c.title, bookId := bid, reason := "既に存在" }] }
  else
    let bookToAdd := mkKindleBook c bid now
    { st with books := st.books ++ [bookToAdd], imported := st.imported ++ [bookToAdd] }

/-- `importSelectedBooks`: insert-only bulk import against a snapshot of the
pre-batch identifiers; afterwards all metadata counters are recomputed and one
snapshot is saved. -/
def importSelectedBooks (selectedBooks : List RawBook) (now : Int) (lib : Library) :
    Library × SelectedImportResult :=
  let exIds := lib.books.map Book.bookId
  let st := selectedBooks.foldl (importSelectedStep now exIds) { books := lib.books }
  ({ books := st.books
     metadata := { totalBooks := st.books.length
                   manuallyAdded := countSource "manual_add" st.books
                   importedFromKindle := countSource "kindle_import" st.books
                   lastImportDate := some now } },
   { success := true
     total := selectedBooks.length
     added := st.imported.length
     updated := 0
     skipped := st.duplicates.length + st.errors.length
     imported := st.imported
     duplicates := st.duplicates
     errors := st.errors })

/-- `addBookManually(bookData)`: validate the resolved identifier, reject
duplicates, build the new record with `||`-style defaults, push it, recompute
`totalBooks` and `manuallyAdded` (only those two), save. Returns the record. -/
def addBookManually (bookData : RawBook) (now : Int) (lib : Library) :
    Except String (Library × Book) :=
  let bid := jsOrS bookData.bookId bookData.asin
  if !(isValidBookId bid) then
    .error "有効な識別子が必要です"
  else if (lib.books.find? (fun b => b.bookId == bid)).isSome then
    .error "この本は既に蔵書に追加されています"
  else
    let newBook : Book :=
      { bookId := bid
        title := jsOrS bookData.title (some "タイトル未設定")
        authors := jsOrS bookData.authors (some "著者未設定")
        acquiredTime := jsOrI bookData.acquiredTime (some now)
        readStatus := jsOrS bookData.readStatus (some "UNKNOWN")
        productImage := jsOrS bookData.productImage
          (if isValidASINOpt bid then (bid.map amazonImageUrl) else none)
        source := jsOrS bookData.source (some "manual_add")
        addedDate := some now }
    let books := lib.books ++ [newBook]
    .ok ({ books := books
           metadata := { lib.metadata with
                         totalBooks := books.length
                         manuallyAdded := countSource "manual_add" books } },
         newBook)

/-- An image-links object returned by the Google Books API. -/
structure ImageLinks where
  extraLarge : Option String := none
  large : Option String := none
  medium : Option String := none
  small : Option String := none
  thumbnail : Option String := none
  deriving Repr, DecidableEq

/-- The `volumeInfo` object returned by the Google Books volume endpoint. -/
structure GoogleVolumeInfo where
  title : Option String := none
  authors : Option (List String) := none
  imageLinks : Option ImageLinks := none
  deriving Repr, DecidableEq

/-- `getBestGoogleBooksImage(imageLinks)`: largest-first truthy chain. -/
def getBestGoogleBooksImage : Option ImageLinks → Option String
  | none => none
  | some il => jsOrS il.extraLarge (jsOrS il.large (jsOrS il.medium (jsOrS il.small il.thumbnail)))

/-- `fetchFromGoogleBooksById(volumeId)` applied to an already-fetched
`volumeInfo`: the record literal it returns. -/
def fetchFromGoogleBooksById (volumeId : String) (info : GoogleVolumeInfo) (now : Int) : Book :=
  { bookId := some volumeId
    title := jsOrS info.title (some "タイトル未取得")
    authors := jsOrS (info.authors.map (String.intercalate ", ")) (some "著者未取得")
    productImage := getBestGoogleBooksImage info.imageLinks
    source := some "google_books"
    acquiredTime := some now
    readStatus := some "UNKNOWN"
    addedDate := some now }

/-- `addBookFromGoogleBooks(urlOrId)`. The URL-extraction step and the HTTP
fetch are external; they are modelled by their results: `volumeId?` is the
volume id (or `none` when URL extraction failed) and `info?` the fetched
`volumeInfo` (or `none` when the fetch failed). Order as in the code:
extraction check, then duplicate check, then fetch, then push; only
`totalBooks` is recomputed. -/
def addBookFromGoogleBooks (volumeId? : Option String) (info? : Option GoogleVolumeInfo)
    (now : Int) (lib : Library) : Except String Library :=
  match volumeId? with
  | none => .error "有効なGoogle BooksのURLではありません"
  | some vid =>
    if (lib.books.find? (fun b => b.bookId == some vid)).isSome then
      .error "この本は既に蔵書に追加されています"
    else
      match info? with
      | none => .error "書籍情報の取得に失敗しました"
      | some info =>
        let bookData := fetchFromGoogleBooksById vid info now
        .ok { books := lib.books ++ [bookData]
              metadata := { lib.metadata with totalBooks := lib.books.length + 1 } }

/-- An `updates` object passed to `updateBook`. For each known field: `none` =
key absent from the object, `some none` = key present with value `undefined`
(the code then deletes the property), `some (some v)` = key present with a
defined value (the code assigns it). -/
structure Updates where
  bookId : Option (Option String) := none
  title : Option (Option String) := none
  authors : Option (Option String) := none
  acquiredTime : Option (Option Int) := none
  readStatus : Option (Option String) := none
  productImage : Option (Option String) := none
  source : Option (Option String) := none
  addedDate : Option (Option Int) := none
  memo : Option (Option String) := none
  rating : Option (Option Int) := none
  updatedBookId : Option (Option String) := none
  deriving Repr, DecidableEq

/-- Apply one key of an updates object to the current field value. -/
def applyKey (u : Option (Option α)) (cur : Option α) : Option α :=
  match u with
  | none => cur
  | some v => v

/-- The `Object.keys(updates).forEach` body of `updateBook`, over all fields. -/
def applyUpdates (u : Updates) (b : Book) : Book :=
  { bookId := applyKey u.bookId b.bookId
    title := applyKey u.title b.title
    authors := applyKey u.authors b.authors
    acquiredTime := applyKey u.acquiredTime b.acquiredTime
    readStatus := applyKey u.readStatus b.readStatus
    productImage := applyKey u.productImage b.productImage
    source := applyKey u.source b.source
    addedDate := applyKey u.addedDate b.addedDate
    memo := applyKey u.memo b.memo
    rating := applyKey u.rating b.rating
    updatedBookId := applyKey u.updatedBookId b.updatedBookId }

/-- `updateBook(bookId, updates)`: find the record (throw `NotFound` if
absent), apply every key of the updates object to it in place, recompute all
three counters, save, return the mutated record. -/
def updateBook (bookId : Option String) (u : Updates) (lib : Library) :
    Except String (Library × Book) :=
  match lib.books.find? (fun b => b.bookId == bookId) with
  | none => .error "指定された書籍が見つかりません"
  | some e =>
    let books := updateFirst (fun b => b.bookId == bookId) (applyUpdates u) lib.books
    .ok ({ books := books
           metadata := { lib.metadata with
                         totalBooks := books.length
                         manuallyAdded := countSource "manual_add" books
                         importedFromKindle := countSource "kindle_import" books } },
         applyUpdates u e)

/-- `deleteBook(bookId, hardDelete)`: throw `NotFound` if the id is absent;
in hard mode splice the record out and recompute the three counters; in soft
mode touch nothing; in both non-throwing paths call `saveLibrary` once. The
second component is the list of snapshots written by `saveLibrary`. -/
def deleteBook (bookId : Option String) (hardDelete : Bool) (lib : Library) :
    Except String (Library × List Library) :=
  match lib.books.find? (fun b => b.bookId == bookId) with
  | none => .error "指定された書籍が見つかりません"
  | some _ =>
    if hardDelete then
      let books := removeFirst (fun b => b.bookId == bookId) lib.books
      let lib2 : Library :=
        { books := books
          metadata := { lib.metadata with
                        totalBooks := books.length
                        manuallyAdded := countSource "manual_add" books
                        importedFromKindle := countSource "kindle_import" books } }
      .ok (lib2, [lib2])
    else
      .ok (lib, [lib])

/-- `clearAllBooks()`: empty the collection and zero all metadata. -/
def clearAllBooks (_lib : Library) : Library :=
  { books := []
    metadata := { totalBooks := 0, manuallyAdded := 0, importedFromKindle := 0,
                  lastImportDate := none } }

/-- The `filter` body of `searchBooks`, with JS evaluation order: accessing
`toLowerCase` on an absent `title` (or, when the title did not match, an
absent `authors`) throws a `TypeError` that aborts the whole call. -/
def searchLoop (lowercaseQuery : String) : List Book → Except String (List Book)
  | [] => .ok []
  | b :: rest =>
    match b.title with
    | none => .error "TypeError"
    | some t =>
      if jsIncludes (jsToLower t) lowercaseQuery then
        (searchLoop lowercaseQuery rest).map (fun r => b :: r)
      else
        match b.authors with
        | none => .error "TypeError"
        | some a =>
          if jsIncludes (jsToLower a) lowercaseQuery then
            (searchLoop lowercaseQuery rest).map (fun r => b :: r)
          else
            searchLoop lowercaseQuery rest

/-- `searchBooks(query)`: case-insensitive substring filter over `title` and
`authors`, in collection order. -/
def searchBooks (query : String) (lib : Library) : Except String (List Book) :=
  searchLoop (jsToLower query) lib.books

/-- The predicate a record satisfies exactly when `searchBooks` keeps it
(meaningful on records whose `title` and `authors` are both present). -/
def searchMatch (query : String) (b : Book) : Bool :=
  jsIncludes (jsToLower (b.title.getD "")) (jsToLower query) ||
  jsIncludes (jsToLower (b.authors.getD "")) (jsToLower query)

/-- One mutating operation of the public `BookManager` interface. External
inputs (parsed batches, URL-extraction results, fetched catalog data) appear
as parameters; `addAmazon` carries the ASIN extraction result and the fetched
data with which `addBookFromAmazonUrl` then calls `addBookManually`. -/
inductive Op where
  | importKindle (batch : List RawBook) (now : Int)
  | importSelected (batch : List RawBook) (now : Int)
  | addManual (bookData : RawBook) (now : Int)
  | addAmazon (extractedAsin : Option String) (fetched : RawBook) (now : Int)
  | addGoogle (volumeId? : Option String) (info? : Option GoogleVolumeInfo) (now : Int)
  | updateOp (bookId : Option String) (updates : Updates)
  | deleteOp (bookId : Option String) (hard : Bool)
  | clearAll

/-- The library state after one operation; a thrown error leaves the state as
it was (every throwing path in the code throws before any mutation). -/
def applyOp (op : Op) (lib : Library) : Library :=
  match op with
  | .importKindle batch now => (importFromKindle batch now lib).1
  | .importSelected batch now => (importSelectedBooks batch now lib).1
  | .addManual bookData now =>
    match addBookManually bookData now lib with
    | .ok (l, _) => l
    | .error _ => lib
  | .addAmazon extractedAsin fetched now =>
    match extractedAsin with
    | none => lib
    | some _ =>
      match addBookManually fetched now lib with
      | .ok (l, _) => l
      | .error _ => lib
  | .addGoogle volumeId? info? now =>
    match addBookFromGoogleBooks volumeId? info? now lib with
    | .ok l => l
    | .error _ => lib
  | .updateOp bookId updates =>
    match updateBook bookId updates lib with
    | .ok (l, _) => l
    | .error _ => lib
  | .deleteOp bookId hard =>
    match deleteBook bookId hard lib with
    | .ok (l, _) => l
    | .error _ => lib
  | .clearAll => clearAllBooks lib

/-- The library state after a sequence of operations. -/
def applyOps (ops : List Op) (lib : Library) : Library :=
  ops.foldl (fun l op => applyOp op l) lib

/-- Side conditions under which identifier uniqueness is actually preserved:
each insert-only batch must carry pairwise-distinct resolved identifiers (the
frozen pre-batch snapshot never learns of in-batch insertions) and no update
map may contain the key `bookId` (`updateBook` applies every key verbatim). -/
def opPreservesUniqueIds : Op → Bool
  | .importSelected batch _ => decide (batch.map resolveId).Nodup
  | .updateOp _ u => u.bookId == none
  | _ => true

/-- Identifier uniqueness: no two records of the collection share a `bookId`. -/
def uniqueIds (lib : Library) : Prop :=
  (lib.books.map Book.bookId).Nodup

/-- The statistics-consistency invariant of the spec: every counter equals the
corresponding pure function of the record sequence. -/
def statsConsistent (lib : Library) : Prop :=
  lib.metadata.totalBooks = lib.books.length ∧
  lib.metadata.manuallyAdded = countSource "manual_add" lib.books ∧
  lib.metadata.importedFromKindle = countSource "kindle_import" lib.books

/-- Side condition under which statistics consistency is preserved: a manual
add (directly or via a marketplace link) must not carry the bulk-import source
`kindle_import`, because `addBookManually` never recomputes
`importedFromKindle`. -/
def opPreservesStats : Op → Bool
  | .addManual d _ => !(d.source == some "kindle_import")
  | .addAmazon _ d _ => !(d.source == some "kindle_import")
  | _ => true

/-! Section: Shared helper lemmas -/

theorem jsOrS_self (a : Option String) : jsOrS a a = a := by
  unfold jsOrS; split <;> rfl

theorem mkKindleBook_bookId (c : RawBook) (now : Int) :
    (mkKindleBook c (resolveId c) now).bookId = resolveId c := by
  simp [mkKindleBook, normalizeBook, resolveId, jsOrS_self]

theorem mkKindleBook_bookId2 (c : RawBook) (bid : Option String) (now : Int) :
    (mkKindleBook c bid now).bookId = jsOrS (resolveId c) bid := rfl

theorem applyKindleUpdate_bookId (c : RawBook) (b : Book) :
    (applyKindleUpdate c b).bookId = b.bookId := rfl

theorem shouldUpdateBook_applyKindleUpdate (c : RawBook) (b : Book) :
    shouldUpdateBook (applyKindleUpdate c b) c = false := by
  simp [shouldUpdateBook, applyKindleUpdate]

theorem shouldUpdateBook_mkKindleBook (c : RawBook) (bid : Option String) (now : Int) :
    shouldUpdateBook (mkKindleBook c bid now) c = false := by
  simp [shouldUpdateBook, mkKindleBook, normalizeBook]

theorem updateFirst_map {γ : Type} (g : Book → γ) (p : Book → Bool) (f : Book → Book)
    (hf : ∀ b, g (f b) = g b) (l : List Book) :
    (updateFirst p f l).map g = l.map g := by
  induction l with
  | nil => rfl
  | cons b rest ih =>
    cases hpb : p b with
    | true => simp [updateFirst, hpb, hf]
    | false => simp [updateFirst, hpb, ih]

theorem updateFirst_countP (q p : Book → Bool) (f : Book → Book)
    (hf : ∀ b, q (f b) = q b) (l : List Book) :
    (updateFirst p f l).countP q = l.countP q := by
  induction l with
  | nil => rfl
  | cons b rest ih =>
    cases hpb : p b with
    | true => simp [updateFirst, hpb, List.countP_cons, hf]
    | false => simp [updateFirst, hpb, List.countP_cons, ih]

theorem find?_updateFirst_same (p : Book → Bool) (f : Book → Book)
    (hf : ∀ b, p b = true → p (f b) = true) (l : List Book) (e : Book)
    (h : l.find? p = some e) : (updateFirst p f l).find? p = some (f e) := by
  induction l with
  | nil => simp [List.find?] at h
  | cons b rest ih =>
    cases hpb : p b with
    | true =>
      rw [List.find?_cons_of_pos _ hpb] at h
      cases h
      simp only [updateFirst, hpb, if_true]
      exact List.find?_cons_of_pos _ (hf e hpb)
    | false =>
      rw [List.find?_cons_of_neg _ (by simp [hpb])] at h
      simp only [updateFirst, hpb, if_false, Bool.false_eq_true]
      rw [List.find?_cons_of_neg _ (by simp [hpb])]
      exact ih h

theorem find?_updateFirst_other (p q : Book → Bool) (f : Book → Book)
    (h : ∀ b, q b = true → p b = false ∧ p (f b) = false) (l : List Book) :
    (updateFirst q f l).find? p = l.find? p := by
  induction l with
  | nil => rfl
  | cons b rest ih =>
    cases hqb : q b with
    | true =>
      simp only [updateFirst, hqb, if_true]
      rw [List.find?_cons_of_neg _ (by simp [(h b hqb).2]),
          List.find?_cons_of_neg _ (by simp [(h b hqb).1])]
    | false =>
      simp only [updateFirst, hqb, if_false, Bool.false_eq_true]
      cases hpb : p b with
      | true => rw [List.find?_cons_of_pos _ hpb, List.find?_cons_of_pos _ hpb]
      | false =>
        rw [List.find?_cons_of_neg _ (by simp [hpb]), List.find?_cons_of_neg _ (by simp [hpb])]
        exact ih

theorem find?_decomp (p : Book → Bool) (l : List Book) (e : Book)
    (h : l.find? p = some e) :
    ∃ s t, l = s ++ e :: t ∧ (∀ b ∈ s, p b = false) ∧ p e = true := by
  induction l with
  | nil => simp [List.find?] at h
  | cons b rest ih =>
    cases hpb : p b with
    | true =>
      rw [List.find?_cons_of_pos _ hpb] at h
      cases h
      exact ⟨[], rest, rfl, by simp, hpb⟩
    | false =>
      rw [List.find?_cons_of_neg _ (by simp [hpb])] at h
      obtain ⟨s, t, rfl, hs, he⟩ := ih h
      refine ⟨b :: s, t, rfl, ?_, he⟩
      intro x hx
      rcases List.mem_cons.mp hx with h1 | h2
      · exact h1 ▸ hpb
      · exact hs x h2

theorem updateFirst_append (p : Book → Bool) (f : Book → Book) (s : List Book) (e : Book)
    (t : List Book) (hs : ∀ b ∈ s, p b = false) (he : p e = true) :
    updateFirst p f (s ++ e :: t) = s ++ f e :: t := by
  induction s with
  | nil => simp [updateFirst, he]
  | cons b s ih =>
    have hb : p b = false := hs b (List.mem_cons_self b s)
    simp only [List.cons_append, updateFirst, hb, if_false, Bool.false_eq_true, List.append_eq]
    rw [ih (fun x hx => hs x (List.mem_cons_of_mem b hx))]

theorem removeFirst_sublist (p : Book → Bool) (l : List Book) :
    (removeFirst p l).Sublist l := by
  induction l with
  | nil => simp [removeFirst]
  | cons b rest ih =>
    cases hpb : p b with
    | true =>
      simp only [removeFirst, hpb, if_true]
      exact List.sublist_cons_self b rest
    | false =>
      simp only [removeFirst, hpb, if_false, Bool.false_eq_true]
      exact ih.cons₂ b

theorem importKindleStep_eq_update (now : Int) (books : List Book) (res : KindleImportResults)
    (c : RawBook) (e : Book)
    (hf : books.find? (fun b => b.bookId == resolveId c) = some e)
    (hu : shouldUpdateBook e c = true) :
    importKindleStep now (books, res) c
      = (updateFirst (fun b => b.bookId == resolveId c) (applyKindleUpdate c) books,
         { res with updated := res.updated + 1 }) := by
  simp [importKindleStep, hf, hu]

theorem importKindleStep_eq_skip (now : Int) (books : List Book) (res : KindleImportResults)
    (c : RawBook) (e : Book)
    (hf : books.find? (fun b => b.bookId == resolveId c) = some e)
    (hu : shouldUpdateBook e c = false) :
    importKindleStep now (books, res) c = (books, { res with skipped := res.skipped + 1 }) := by
  simp [importKindleStep, hf, hu]

theorem importKindleStep_eq_insert (now : Int) (books : List Book) (res : KindleImportResults)
    (c : RawBook)
    (hf : books.find? (fun b => b.bookId == resolveId c) = none) :
    importKindleStep now (books, res) c
      = (books ++ [mkKindleBook c (resolveId c) now], { res with added := res.added + 1 }) := by
  simp [importKindleStep, hf]

theorem kindleSettled_step_self (now : Int) (books : List Book) (res : KindleImportResults)
    (c : RawBook) : kindleSettled (importKindleStep now (books, res) c).1 c := by
  cases hf : books.find? (fun b => b.bookId == resolveId c) with
  | some e =>
    cases hu : shouldUpdateBook e c with
    | true =>
      rw [importKindleStep_eq_update now books res c e hf hu]
      refine ⟨applyKindleUpdate c e, ?_, shouldUpdateBook_applyKindleUpdate c e⟩
      exact find?_updateFirst_same (fun b => b.bookId == resolveId c) (applyKindleUpdate c)
        (fun b hb => hb) books e hf
    | false =>
      rw [importKindleStep_eq_skip now books res c e hf hu]
      exact ⟨e, hf, hu⟩
  | none =>
    rw [importKindleStep_eq_insert now books res c hf]
    refine ⟨mkKindleBook c (resolveId c) now, ?_, shouldUpdateBook_mkKindleBook c (resolveId c) now⟩
    rw [List.find?_append, hf]
    simp [List.find?, mkKindleBook_bookId]

theorem kindleSettled_step_other (now : Int) (books : List Book) (res : KindleImportResults)
    (c c2 : RawBook) (hne : resolveId c2 ≠ resolveId c) (h : kindleSettled books c) :
    kindleSettled (importKindleStep now (books, res) c2).1 c := by
  obtain ⟨e, hf, hu⟩ := h
  cases hf2 : books.find? (fun b => b.bookId == resolveId c2) with
  | some e2 =>
    cases hu2 : shouldUpdateBook e2 c2 with
    | true =>
      rw [importKindleStep_eq_update now books res c2 e2 hf2 hu2]
      refine ⟨e, ?_, hu⟩
      rw [find?_updateFirst_other _ _ _ ?_ books]
      · exact hf
      · intro b hb
        have hb2 : b.bookId = resolveId c2 := by simpa using hb
        constructor
        · simp [hb2, hne]
        · simp [applyKindleUpdate, hb2, hne]
    | false =>
      rw [importKindleStep_eq_skip now books res c2 e2 hf2 hu2]
      exact ⟨e, hf, hu⟩
  | none =>
    rw [importKindleStep_eq_insert now books res c2 hf2]
    refine ⟨e, ?_, hu⟩
    rw [List.find?_append, hf]
    rfl

theorem kindleSettled_fold (now : Int) (cs : List RawBook) (books : List Book)
    (res : KindleImportResults) (c : RawBook)
    (hni : resolveId c ∉ cs.map resolveId) (h : kindleSettled books c) :
    kindleSettled ((cs.foldl (importKindleStep now) (books, res)).1) c := by
  induction cs generalizing books res with
  | nil => exact h
  | cons c2 cs ih =>
    rw [List.map_cons] at hni
    have hne : resolveId c2 ≠ resolveId c := by
      intro hEq
      exact hni (hEq ▸ List.mem_cons_self _ _)
    have hni2 : resolveId c ∉ cs.map resolveId := fun hmem => hni (List.mem_cons_of_mem _ hmem)
    simp only [List.foldl_cons]
    exact ih (importKindleStep now (books, res) c2).1 (importKindleStep now (books, res) c2).2
      hni2 (kindleSettled_step_other now books res c c2 hne h)

theorem kindleFold_settles (now : Int) (cs : List RawBook) (books : List Book)
    (res : KindleImportResults) (hnd : (cs.map resolveId).Nodup) :
    ∀ c ∈ cs, kindleSettled ((cs.foldl (importKindleStep now) (books, res)).1) c := by
  induction cs generalizing books res with
  | nil => intro c hc; cases hc
  | cons c2 cs ih =>
    intro c hc
    rw [List.map_cons, List.nodup_cons] at hnd
    simp only [List.foldl_cons]
    rcases List.mem_cons.mp hc with rfl | hmem
    · exact kindleSettled_fold now cs (importKindleStep now (books, res) c).1
        (importKindleStep now (books, res) c).2 c hnd.1
        (kindleSettled_step_self now books res c)
    · exact ih (importKindleStep now (books, res) c2).1 (importKindleStep now (books, res) c2).2
        hnd.2 c hmem

theorem kindleFold_skips (now : Int) (cs : List RawBook) (books : List Book)
    (res : KindleImportResults) (h : ∀ c ∈ cs, kindleSettled books c) :
    cs.foldl (importKindleStep now) (books, res)
      = (books, { res with skipped := res.skipped + cs.length }) := by
  induction cs generalizing res with
  | nil => cases res; simp
  | cons c cs ih =>
    obtain ⟨e, hf, hu⟩ := h c (List.mem_cons_self _ _)
    simp only [List.foldl_cons]
    rw [importKindleStep_eq_skip now books res c e hf hu,
        ih _ (fun x hx => h x (List.mem_cons_of_mem _ hx))]
    simp [Nat.add_assoc, Nat.add_comm 1 cs.length]

/-! Section: C4: idempotent merge-with-update re-import -/

/-- C4 (amended): for a batch whose candidates carry pairwise-distinct
resolved identifiers, running `importFromKindle` a second time with the
identical batch leaves the record sequence unchanged and reports
`added = 0, updated = 0, skipped = total`. (The unrestricted claim fails:
see the counterexample with two same-id candidates in one batch.) -/
theorem importFromKindle_idempotent (batch : List RawBook) (lib : Library) (n1 n2 : Int)
    (hnd : (batch.map resolveId).Nodup) :
    (importFromKindle batch n2 (importFromKindle batch n1 lib).1).1.books
        = (importFromKindle batch n1 lib).1.books ∧
    (importFromKindle batch n2 (importFromKindle batch n1 lib).1).2.added = 0 ∧
    (importFromKindle batch n2 (importFromKindle batch n1 lib).1).2.updated = 0 ∧
    (importFromKindle batch n2 (importFromKindle batch n1 lib).1).2.skipped = batch.length := by
  have hset : ∀ c ∈ batch,
      kindleSettled ((batch.foldl (importKindleStep n1)
        (lib.books, { total := batch.length, added := 0, updated := 0, skipped := 0 })).1) c :=
    kindleFold_settles n1 batch lib.books _ hnd
  have key := kindleFold_skips n2 batch
    ((batch.foldl (importKindleStep n1)
      (lib.books, { total := batch.length, added := 0, updated := 0, skipped := 0 })).1)
    { total := batch.length, added := 0, updated := 0, skipped := 0 } hset
  refine ⟨?_, ?_, ?_, ?_⟩
  · calc (importFromKindle batch n2 (importFromKindle batch n1 lib).1).1.books
        = (batch.foldl (importKindleStep n2)
            ((batch.foldl (importKindleStep n1)
              (lib.books, { total := batch.length, added := 0, updated := 0, skipped := 0 })).1,
             { total := batch.length, added := 0, updated := 0, skipped := 0 })).1 := rfl
      _ = (importFromKindle batch n1 lib).1.books := by rw [key]; rfl
  · calc (importFromKindle batch n2 (importFromKindle batch n1 lib).1).2.added
        = (batch.foldl (importKindleStep n2)
            ((batch.foldl (importKindleStep n1)
              (lib.books, { total := batch.length, added := 0, updated := 0, skipped := 0 })).1,
             { total := batch.length, added := 0, updated := 0, skipped := 0 })).2.added := rfl
      _ = 0 := by rw [key]
  · calc (importFromKindle batch n2 (importFromKindle batch n1 lib).1).2.updated
        = (batch.foldl (importKindleStep n2)
            ((batch.foldl (importKindleStep n1)
              (lib.books, { total := batch.length, added := 0, updated := 0, skipped := 0 })).1,
             { total := batch.length, added := 0, updated := 0, skipped := 0 })).2.updated := rfl
      _ = 0 := by rw [key]
  · calc (importFromKindle batch n2 (importFromKindle batch n1 lib).1).2.skipped
        = (batch.foldl (importKindleStep n2)
            ((batch.foldl (importKindleStep n1)
              (lib.books, { total := batch.length, added := 0, updated := 0, skipped := 0 })).1,
             { total := batch.length, added := 0, updated := 0, skipped := 0 })).2.skipped := rfl
      _ = batch.length := by rw [key]; simp

/-- C4 witness: a singleton batch re-imported into an initially empty
collection is skipped in full on the second run. -/
theorem importFromKindle_idempotent_witness :
    (importFromKindle [{ bookId := some "X1", title := some "T1" }] 2
        (importFromKindle [{ bookId := some "X1", title := some "T1" }] 1 emptyLibrary).1).1.books
        = (importFromKindle [{ bookId := some "X1", title := some "T1" }] 1 emptyLibrary).1.books ∧
    (importFromKindle [{ bookId := some "X1", title := some "T1" }] 2
        (importFromKindle [{ bookId := some "X1", title := some "T1" }] 1 emptyLibrary).1).2.added = 0 ∧
    (importFromKindle [{ bookId := some "X1", title := some "T1" }] 2
        (importFromKindle [{ bookId := some "X1", title := some "T1" }] 1 emptyLibrary).1).2.updated = 0 ∧
    (importFromKindle [{ bookId := some "X1", title := some "T1" }] 2
        (importFromKindle [{ bookId := some "X1", title := some "T1" }] 1 emptyLibrary).1).2.skipped = 1 :=
  importFromKindle_idempotent [{ bookId := some "X1", title := some "T1" }] emptyLibrary 1 2
    (by decide)

/-- C4 counterexample: a batch whose two candidates carry the same identifier
with different titles is not idempotent — the second identical run reports
`updated = 2`, `skipped = 0` instead of `added = 0, updated = 0,
skipped = total`. -/
theorem importFromKindle_idempotent_counterexample :
    (importFromKindle [{ bookId := some "X1", title := some "T1" },
                       { bookId := some "X1", title := some "T2" }] 2
        (importFromKindle [{ bookId := some "X1", title := some "T1" },
                           { bookId := some "X1", title := some "T2" }] 1 emptyLibrary).1).2.updated = 2 ∧
    (importFromKindle [{ bookId := some "X1", title := some "T1" },
                       { bookId := some "X1", title := some "T2" }] 2
        (importFromKindle [{ bookId := some "X1", title := some "T1" },
                           { bookId := some "X1", title := some "T2" }] 1 emptyLibrary).1).2.skipped = 0 :=
  ⟨rfl, rfl⟩

/-! Section: C3: merge-with-update frame effect -/

/-- C3 (amended): in the merge-with-update loop body, when the candidate's
resolved identifier matches a record (the collection splits as
`s ++ e :: t` with no earlier match) and at least one of the four compared
fields differs, exactly the five fields `title`, `authors`, `acquiredTime`,
`readStatus`, `productImage` of that record are overwritten — `authors` is
overwritten as well, unlike the original claim — while `bookId`, `addedDate`,
`source`, `memo`, `rating`, `updatedBookId` and all other records are
untouched; when none of the four compared fields differ the collection is
entirely unchanged and the candidate counts as skipped. -/
theorem importKindleStep_update_frame (now : Int) (s t : List Book)
    (res : KindleImportResults) (c : RawBook) (e : Book)
    (hs : ∀ b ∈ s, (b.bookId == resolveId c) = false)
    (he : (e.bookId == resolveId c) = true) :
    (shouldUpdateBook e c = true →
      importKindleStep now (s ++ e :: t, res) c
          = (s ++ applyKindleUpdate c e :: t, { res with updated := res.updated + 1 }) ∧
      (applyKindleUpdate c e).title = c.title ∧
      (applyKindleUpdate c e).authors = c.authors ∧
      (applyKindleUpdate c e).acquiredTime = c.acquiredTime ∧
      (applyKindleUpdate c e).readStatus = c.readStatus ∧
      (applyKindleUpdate c e).productImage = c.productImage ∧
      (applyKindleUpdate c e).bookId = e.bookId ∧
      (applyKindleUpdate c e).addedDate = e.addedDate ∧
      (applyKindleUpdate c e).source = e.source ∧
      (applyKindleUpdate c e).memo = e.memo ∧
      (applyKindleUpdate c e).rating = e.rating ∧
      (applyKindleUpdate c e).updatedBookId = e.updatedBookId) ∧
    (shouldUpdateBook e c = false →
      importKindleStep now (s ++ e :: t, res) c
          = (s ++ e :: t, { res with skipped := res.skipped + 1 })) := by
  have hfind : (s ++ e :: t).find? (fun b => b.bookId == resolveId c) = some e := by
    rw [List.find?_append, List.find?_eq_none.mpr (fun b hb => by simp [hs b hb])]
    simp [List.find?, he]
  constructor
  · intro hu
    refine ⟨?_, rfl, rfl, rfl, rfl, rfl, rfl, rfl, rfl, rfl, rfl, rfl⟩
    rw [importKindleStep_eq_update now _ res c e hfind hu, updateFirst_append _ _ s e t hs he]
  · intro hu
    exact importKindleStep_eq_skip now _ res c e hfind hu

/-- C3 witness: a one-record collection whose record differs from the
candidate in `title` gets exactly the five fields overwritten. -/
theorem importKindleStep_update_frame_witness :
    importKindleStep 5
      ([{ bookId := some "X1", title := some "T1", authors := some "A" }],
       { total := 1, added := 0, updated := 0, skipped := 0 })
      { bookId := some "X1", title := some "T2", authors := some "B" }
      = ([applyKindleUpdate { bookId := some "X1", title := some "T2", authors := some "B" }
            { bookId := some "X1", title := some "T1", authors := some "A" }],
         { total := 1, added := 0, updated := 1, skipped := 0 }) :=
  ((importKindleStep_update_frame 5 [] []
      { total := 1, added := 0, updated := 0, skipped := 0 }
      { bookId := some "X1", title := some "T2", authors := some "B" }
      { bookId := some "X1", title := some "T1", authors := some "A" }
      (by simp) (by decide)).1 (by decide)).1

/-- C3 counterexample: the original claim says `authors` is left unchanged by
a merge-with-update overwrite, but the code overwrites it: importing a
candidate with the same id, a different title and authors "B" over a record
with authors "A" changes the stored authors to "B". -/
theorem importFromKindle_overwrites_authors_counterexample :
    (importFromKindle [{ bookId := some "X1", title := some "T2", authors := some "B" }] 9
        { books := [{ bookId := some "X1", title := some "T1", authors := some "A" }] }).1.books.map
      Book.authors = [some "B"] :=
  rfl

/-! Section: C6: precedence of the superseding-identifier fields in normalizeBook -/

/-- C6 (amended): when both the current-schema field `updatedBookId` and the
legacy alias `updatedAsin` are present (truthy), `normalizeBook` keeps the
legacy alias — the second spread in the object literal wins — not the
current-schema value as originally claimed; when only one is truthy that one
is used, and when neither is truthy the field is omitted. -/
theorem normalizeBook_updatedBookId_resolution (b : RawBook) (k : Option String) :
    (truthyS b.updatedAsin = true → (normalizeBook b k).updatedBookId = b.updatedAsin) ∧
    (truthyS b.updatedAsin = false → truthyS b.updatedBookId = true →
      (normalizeBook b k).updatedBookId = b.updatedBookId) ∧
    (truthyS b.updatedAsin = false → truthyS b.updatedBookId = false →
      (normalizeBook b k).updatedBookId = none) := by
  refine ⟨fun h1 => ?_, fun h1 h2 => ?_, fun h1 h2 => ?_⟩ <;> simp [normalizeBook, h1]
  · simp [h2]
  · simp [h2]

/-- C6 witness: the three branches at concrete records. -/
theorem normalizeBook_updatedBookId_resolution_witness :
    (normalizeBook { updatedBookId := some "NEW0000001", updatedAsin := some "OLD0000001" }
        none).updatedBookId = some "OLD0000001" ∧
    (normalizeBook { updatedBookId := some "NEW0000001" } none).updatedBookId
        = some "NEW0000001" ∧
    (normalizeBook {} none).updatedBookId = none :=
  ⟨(normalizeBook_updatedBookId_resolution
      { updatedBookId := some "NEW0000001", updatedAsin := some "OLD0000001" } none).1 (by decide),
   (normalizeBook_updatedBookId_resolution
      { updatedBookId := some "NEW0000001" } none).2.1 (by decide) (by decide),
   (normalizeBook_updatedBookId_resolution {} none).2.2 (by decide) (by decide)⟩

/-- C6 counterexample: with both fields present the normalized record carries
the legacy `updatedAsin` value, not the current-schema `updatedBookId` value
the claim requires. -/
theorem normalizeBook_updatedBookId_counterexample :
    (normalizeBook { updatedBookId := some "NEW0000001", updatedAsin := some "OLD0000001" }
        none).updatedBookId = some "OLD0000001" ∧
    (normalizeBook { updatedBookId := some "NEW0000001", updatedAsin := some "OLD0000001" }
        none).updatedBookId ≠ some "NEW0000001" :=
  ⟨rfl, by decide⟩

/-! Section: C9: deleteBook - soft mode is a persisted no-op, absent id throws -/

/-- C9: for a `bookId` present in the collection, `deleteBook` with
`hardDelete = false` returns the library entirely unchanged (records and
metadata) while writing exactly one persistence snapshot; for an absent
`bookId` it throws `NotFound` in either mode, leaving the library unchanged
(the error branch returns no new state). -/
theorem deleteBook_soft_noop_and_notfound :
    (∀ (lib : Library) (bid : Option String) (e : Book),
      lib.books.find? (fun b => b.bookId == bid) = some e →
      deleteBook bid false lib = .ok (lib, [lib])) ∧
    (∀ (lib : Library) (bid : Option String) (hard : Bool),
      lib.books.find? (fun b => b.bookId == bid) = none →
      deleteBook bid hard lib = .error "指定された書籍が見つかりません") := by
  constructor
  · intro lib bid e h
    simp [deleteBook, h]
  · intro lib bid hard h
    simp [deleteBook, h]

/-- C9 witness: soft delete of the one present record writes the unchanged
snapshot; deleting an absent id errors. -/
theorem deleteBook_soft_noop_and_notfound_witness :
    deleteBook (some "B000000001") false
        { books := [{ bookId := some "B000000001", title := some "T" }] }
      = .ok ({ books := [{ bookId := some "B000000001", title := some "T" }] },
             [{ books := [{ bookId := some "B000000001", title := some "T" }] }]) ∧
    deleteBook (some "MISSING123") true
        { books := [{ bookId := some "B000000001", title := some "T" }] }
      = .error "指定された書籍が見つかりません" :=
  ⟨deleteBook_soft_noop_and_notfound.1
     { books := [{ bookId := some "B000000001", title := some "T" }] }
     (some "B000000001") { bookId := some "B000000001", title := some "T" } (by decide),
   deleteBook_soft_noop_and_notfound.2
     { books := [{ bookId := some "B000000001", title := some "T" }] }
     (some "MISSING123") true (by decide)⟩

/-! Section: C10: searchBooks totality precondition -/

theorem searchLoop_ok (lq : String) (l : List Book)
    (h : ∀ b ∈ l, b.title.isSome = true ∧ b.authors.isSome = true) :
    searchLoop lq l = .ok (l.filter (fun b =>
      jsIncludes (jsToLower (b.title.getD "")) lq ||
      jsIncludes (jsToLower (b.authors.getD "")) lq)) := by
  induction l with
  | nil => rfl
  | cons b rest ih =>
    obtain ⟨ht, ha⟩ := h b (List.mem_cons_self _ _)
    obtain ⟨tt, htt⟩ := Option.isSome_iff_exists.mp ht
    obtain ⟨aa, haa⟩ := Option.isSome_iff_exists.mp ha
    have ih2 := ih (fun x hx => h x (List.mem_cons_of_mem _ hx))
    cases hinc : jsIncludes (jsToLower tt) lq with
    | true => simp [searchLoop, htt, hinc, ih2, List.filter_cons, Except.map]
    | false =>
      cases hinc2 : jsIncludes (jsToLower aa) lq with
      | true => simp [searchLoop, htt, haa, hinc, hinc2, ih2, List.filter_cons, Except.map]
      | false => simp [searchLoop, htt, haa, hinc, hinc2, ih2, List.filter_cons, Except.map]

/-- C10: `searchBooks` is total only when every record carries both strings:
on a collection holding a record without `title` (here produced by
`normalizeBook` from a raw record missing it) the call fails with a
`TypeError` instead of skipping the record, while under the precondition it
returns exactly the case-insensitive substring matches in collection order. -/
theorem searchBooks_partiality :
    searchBooks "a" { books := [normalizeBook { asin := some "B000000001" } none] }
        = .error "TypeError" ∧
    (∀ (q : String) (lib : Library),
      (∀ b ∈ lib.books, b.title.isSome = true ∧ b.authors.isSome = true) →
      searchBooks q lib = .ok (lib.books.filter (searchMatch q))) := by
  constructor
  · rfl
  · intro q lib h
    exact searchLoop_ok (jsToLower q) lib.books h

/-- C10 witness: a title match and an authors match are both returned; a
non-match is filtered out. -/
theorem searchBooks_partiality_witness :
    searchBooks "tit" { books := [{ bookId := some "B1", title := some "The Title",
                                    authors := some "Alice" },
                                  { bookId := some "B2", title := some "Other",
                                    authors := some "Bob" }] }
      = .ok [{ bookId := some "B1", title := some "The Title", authors := some "Alice" }] :=
  (searchBooks_partiality.2 "tit"
    { books := [{ bookId := some "B1", title := some "The Title", authors := some "Alice" },
                { bookId := some "B2", title := some "Other", authors := some "Bob" }] }
    (by decide)).trans rfl

/-! Section: C2: insert-only import of two same-id candidates -/

/-- C2 (amended): running `importSelectedBooks` on an empty collection with a
batch of two candidates carrying the same new identifier inserts BOTH of them
(`added = 2`, no duplicate recorded, two records with the same `bookId` in
the collection), because the duplicate check consults only the frozen
pre-batch snapshot of identifiers, which never learns of in-batch inserts. -/
theorem importSelected_same_new_id_both_inserted (c1 c2 : RawBook) (now : Int)
    (h : resolveId c1 = resolveId c2) :
    (importSelectedBooks [c1, c2] now emptyLibrary).2.added = 2 ∧
    (importSelectedBooks [c1, c2] now emptyLibrary).2.duplicates = [] ∧
    (importSelectedBooks [c1, c2] now emptyLibrary).1.books.map Book.bookId
      = [resolveId c1, resolveId c1] := by
  refine ⟨?_, ?_, ?_⟩ <;>
    simp [importSelectedBooks, importSelectedStep, emptyLibrary, mkKindleBook_bookId2, h,
          jsOrS_self]

/-- C2 witness: two concrete same-id candidates against the empty collection. -/
theorem importSelected_same_new_id_both_inserted_witness :
    (importSelectedBooks [{ bookId := some "B000000001", title := some "T" },
                          { bookId := some "B000000001", title := some "U" }] 7
        emptyLibrary).2.added = 2 ∧
    (importSelectedBooks [{ bookId := some "B000000001", title := some "T" },
                          { bookId := some "B000000001", title := some "U" }] 7
        emptyLibrary).2.duplicates = [] ∧
    (importSelectedBooks [{ bookId := some "B000000001", title := some "T" },
                          { bookId := some "B000000001", title := some "U" }] 7
        emptyLibrary).1.books.map Book.bookId
      = [some "B000000001", some "B000000001"] :=
  importSelected_same_new_id_both_inserted
    { bookId := some "B000000001", title := some "T" }
    { bookId := some "B000000001", title := some "U" } 7 rfl

/-- C2 counterexample: the original claim (first inserted, second recorded as
a duplicate, `added = 1`) is false — the code reports `added = 2` and an
empty duplicates list. -/
theorem importSelected_duplicate_freeze_counterexample :
    ¬ ((importSelectedBooks [{ bookId := some "B000000001", title := some "T" },
                             { bookId := some "B000000001", title := some "T" }] 7
          emptyLibrary).2.added = 1) ∧
    (importSelectedBooks [{ bookId := some "B000000001", title := some "T" },
                          { bookId := some "B000000001", title := some "T" }] 7
        emptyLibrary).2.added = 2 ∧
    (importSelectedBooks [{ bookId := some "B000000001", title := some "T" },
                          { bookId := some "B000000001", title := some "T" }] 7
        emptyLibrary).2.duplicates = [] :=
  ⟨by decide, rfl, rfl⟩

/-! Section: C8: per-candidate isolation and the error bucket -/

theorem selStep_buckets (now : Int) (exIds : List (Option String)) (st : SelState) (c : RawBook) :
    (importSelectedStep now exIds st c).errors = st.errors ∧
    (importSelectedStep now exIds st c).imported.length
        + (importSelectedStep now exIds st c).duplicates.length
      = st.imported.length + st.duplicates.length + 1 := by
  unfold importSelectedStep
  by_cases hdup : resolveId c ∈ exIds
  · simp [hdup, Nat.add_assoc]
  · simp [hdup, Nat.add_right_comm]

theorem selFold_buckets (now : Int) (exIds : List (Option String)) (cs : List RawBook)
    (st : SelState) :
    (cs.foldl (importSelectedStep now exIds) st).errors = st.errors ∧
    (cs.foldl (importSelectedStep now exIds) st).imported.length
        + (cs.foldl (importSelectedStep now exIds) st).duplicates.length
      = st.imported.length + st.duplicates.length + cs.length := by
  induction cs generalizing st with
  | nil => simp
  | cons c cs ih =>
    simp only [List.foldl_cons]
    obtain ⟨he, hn⟩ := ih (importSelectedStep now exIds st c)
    obtain ⟨he2, hn2⟩ := selStep_buckets now exIds st c
    refine ⟨he.trans he2, ?_⟩
    rw [hn, hn2]
    simp [List.length_cons, Nat.add_assoc, Nat.add_comm 1 cs.length]

/-- C8 (amended): only the insert-only mode (`importSelectedBooks`) isolates
candidates individually and carries an `errors` bucket; within the modelled
domain of well-formed candidate objects nothing in its per-candidate body can
throw, so the bucket is always empty and every candidate lands in exactly one
of the inserted/duplicate buckets — in particular a candidate with no
resolvable identifier is inserted under an absent identifier, not reported as
an error. (`importFromKindle`'s summary has no error bucket at all: its
result carries only `total`, `added`, `updated`, `skipped`.) -/
theorem importSelectedBooks_isolates_candidates (batch : List RawBook) (now : Int)
    (lib : Library) :
    (importSelectedBooks batch now lib).2.errors = [] ∧
    (importSelectedBooks batch now lib).2.added
        + (importSelectedBooks batch now lib).2.duplicates.length = batch.length := by
  obtain ⟨he, hn⟩ := selFold_buckets now (lib.books.map Book.bookId) batch { books := lib.books }
  exact ⟨he, by simpa using hn⟩

/-- C8 counterexample: a candidate from which no identifier can be resolved
is not reported in the error bucket — it is inserted, with an absent
identifier, and the errors list stays empty. -/
theorem importSelectedBooks_noId_counterexample :
    (importSelectedBooks [({} : RawBook)] 3 emptyLibrary).2.errors = [] ∧
    (importSelectedBooks [({} : RawBook)] 3 emptyLibrary).2.added = 1 ∧
    (importSelectedBooks [({} : RawBook)] 3 emptyLibrary).1.books.map Book.bookId = [none] :=
  ⟨rfl, rfl, rfl⟩

/-! Section: C7: immutability of bookId, addedDate, source under updateBook -/

/-- C7 (amended): `updateBook` applies every key present in the updates map,
including `bookId`, `addedDate` and `source`; those three fields are
therefore preserved exactly when the updates map contains none of them — in
that case every record's identity triple is unchanged. -/
theorem updateBook_preserves_identity_fields (lib : Library) (bid : Option String)
    (u : Updates) (lib2 : Library) (bk : Book)
    (h1 : u.bookId = none) (h2 : u.addedDate = none) (h3 : u.source = none)
    (h : updateBook bid u lib = .ok (lib2, bk)) :
    lib2.books.map (fun b => (b.bookId, b.addedDate, b.source))
      = lib.books.map (fun b => (b.bookId, b.addedDate, b.source)) := by
  unfold updateBook at h
  cases hf : lib.books.find? (fun b => b.bookId == bid) with
  | none =>
    rw [hf] at h
    exact absurd h (by simp)
  | some e =>
    rw [hf] at h
    simp only [Except.ok.injEq, Prod.mk.injEq] at h
    rw [← h.1]
    exact updateFirst_map _ _ _
      (fun b => by simp [applyUpdates, applyKey, h1, h2, h3]) lib.books

/-- C7 witness: an update that only sets `title` leaves the identity triple of
every record intact. -/
theorem updateBook_preserves_identity_fields_witness :
    ({ books := [{ bookId := some "X1", title := some "T2", source := some "manual_add",
                   addedDate := some 1 }],
       metadata := { lastImportDate := none, totalBooks := 1, manuallyAdded := 1,
                     importedFromKindle := 0 } } : Library).books.map
        (fun b => (b.bookId, b.addedDate, b.source))
      = ({ books := [{ bookId := some "X1", title := some "T", source := some "manual_add",
                       addedDate := some 1 }] } : Library).books.map
        (fun b => (b.bookId, b.addedDate, b.source)) :=
  updateBook_preserves_identity_fields
    { books := [{ bookId := some "X1", title := some "T", source := some "manual_add",
                  addedDate := some 1 }] }
    (some "X1") { title := some (some "T2") }
    { books := [{ bookId := some "X1", title := some "T2", source := some "manual_add",
                  addedDate := some 1 }],
      metadata := { lastImportDate := none, totalBooks := 1, manuallyAdded := 1,
                    importedFromKindle := 0 } }
    { bookId := some "X1", title := some "T2", source := some "manual_add", addedDate := some 1 }
    rfl rfl rfl (by rfl)

/-- C7 counterexample: an updates map containing the key `source` rewrites the
record's `source`, which the claim says is immutable under `updateBook`. -/
theorem updateBook_mutates_source_counterexample :
    ({ books := [{ bookId := some "X1", source := some "manual_add" }] } : Library).books.map
        Book.source = [some "manual_add"] ∧
    (updateBook (some "X1") { source := some (some "google_books") }
        { books := [{ bookId := some "X1", source := some "manual_add" }] }).map
      (fun r => r.1.books.map Book.source) = .ok [some "google_books"] :=
  ⟨rfl, rfl⟩

/-! Section: C1: identifier uniqueness across operation sequences -/

theorem nodup_snoc_bookId (books : List Book) (nb : Book)
    (h : (books.map Book.bookId).Nodup) (hni : nb.bookId ∉ books.map Book.bookId) :
    ((books ++ [nb]).map Book.bookId).Nodup := by
  rw [List.map_append, List.nodup_append]
  refine ⟨h, by simp, ?_⟩
  intro x hx hmem
  simp only [List.map_cons, List.map_nil, List.mem_singleton] at hmem
  subst hmem
  exact hni hx

theorem importKindleStep_nodup (now : Int) (books : List Book) (res : KindleImportResults)
    (c : RawBook) (h : (books.map Book.bookId).Nodup) :
    (((importKindleStep now (books, res) c).1).map Book.bookId).Nodup := by
  cases hf : books.find? (fun b => b.bookId == resolveId c) with
  | some e =>
    cases hu : shouldUpdateBook e c with
    | true =>
      rw [importKindleStep_eq_update now books res c e hf hu]
      show ((updateFirst (fun b => b.bookId == resolveId c)
        (applyKindleUpdate c) books).map Book.bookId).Nodup
      rw [updateFirst_map Book.bookId (fun b => b.bookId == resolveId c)
        (applyKindleUpdate c) (fun b => rfl) books]
      exact h
    | false =>
      rw [importKindleStep_eq_skip now books res c e hf hu]
      exact h
  | none =>
    rw [importKindleStep_eq_insert now books res c hf]
    have hni : (mkKindleBook c (resolveId c) now).bookId ∉ books.map Book.bookId := by
      rw [mkKindleBook_bookId]
      intro hmem
      obtain ⟨b, hb, hbid⟩ := List.mem_map.mp hmem
      exact (List.find?_eq_none.mp hf b hb) (by simp [hbid])
    exact nodup_snoc_bookId books _ h hni

theorem kindleFold_nodup (now : Int) (cs : List RawBook) (books : List Book)
    (res : KindleImportResults) (h : (books.map Book.bookId).Nodup) :
    (((cs.foldl (importKindleStep now) (books, res)).1).map Book.bookId).Nodup := by
  induction cs generalizing books res with
  | nil => exact h
  | cons c cs ih =>
    simp only [List.foldl_cons]
    exact ih (importKindleStep now (books, res) c).1 (importKindleStep now (books, res) c).2
      (importKindleStep_nodup now books res c h)

theorem importSelectedStep_eq_dup (now : Int) (exIds : List (Option String)) (st : SelState)
    (c : RawBook) (hdup : resolveId c ∈ exIds) :
    importSelectedStep now exIds st c
      = { st with duplicates := st.duplicates
            ++ [{ title := c.title, bookId := resolveId c, reason := "既に存在" }] } := by
  simp [importSelectedStep, hdup]

theorem importSelectedStep_eq_ins (now : Int) (exIds : List (Option String)) (st : SelState)
    (c : RawBook) (hdup : resolveId c ∉ exIds) :
    importSelectedStep now exIds st c
      = { st with books := st.books ++ [mkKindleBook c (resolveId c) now],
                  imported := st.imported ++ [mkKindleBook c (resolveId c) now] } := by
  simp [importSelectedStep, hdup]

theorem selFold_nodup (now : Int) (exIds : List (Option String)) (cs : List RawBook)
    (st : SelState) (hnd : (cs.map resolveId).Nodup)
    (hbooks : (st.books.map Book.bookId).Nodup)
    (hsub : ∀ x ∈ st.books.map Book.bookId, x ∈ exIds ∨ x ∉ cs.map resolveId) :
    (((cs.foldl (importSelectedStep now exIds) st).books).map Book.bookId).Nodup := by
  induction cs generalizing st with
  | nil => exact hbooks
  | cons c cs ih =>
    rw [List.map_cons, List.nodup_cons] at hnd
    simp only [List.foldl_cons]
    by_cases hdup : resolveId c ∈ exIds
    · rw [importSelectedStep_eq_dup now exIds st c hdup]
      refine ih _ hnd.2 hbooks ?_
      intro x hx
      rcases hsub x hx with hin | hnotin
      · exact Or.inl hin
      · exact Or.inr (fun hmem => hnotin (List.mem_cons_of_mem _ hmem))
    · rw [importSelectedStep_eq_ins now exIds st c hdup]
      have hni : resolveId c ∉ st.books.map Book.bookId := by
        intro hmem
        rcases hsub _ hmem with hin | hnotin
        · exact hdup hin
        · exact hnotin (by rw [List.map_cons]; exact List.mem_cons_self _ _)
      refine ih _ hnd.2 ?_ ?_
      · exact nodup_snoc_bookId st.books _ hbooks (by rw [mkKindleBook_bookId]; exact hni)
      · intro x hx
        rw [List.map_append] at hx
        rcases List.mem_append.mp hx with hold | hnew
        · rcases hsub x hold with hin | hnotin
          · exact Or.inl hin
          · exact Or.inr (fun hmem => hnotin (List.mem_cons_of_mem _ hmem))
        · simp only [List.map_cons, List.map_nil, List.mem_singleton,
            mkKindleBook_bookId] at hnew
          subst hnew
          exact Or.inr hnd.1

theorem addManualResult_uniqueIds (d : RawBook) (now : Int) (lib : Library)
    (h : uniqueIds lib) :
    uniqueIds (match addBookManually d now lib with
               | .ok (l, _) => l
               | .error _ => lib) := by
  cases hv : isValidBookId (jsOrS d.bookId d.asin) with
  | false => simp [addBookManually, hv]; exact h
  | true =>
    cases hf : lib.books.find? (fun b => b.bookId == jsOrS d.bookId d.asin) with
    | some e => simp [addBookManually, hv, hf]; exact h
    | none =>
      have hni : jsOrS d.bookId d.asin ∉ lib.books.map Book.bookId := by
        intro hmem
        obtain ⟨b, hb, hbid⟩ := List.mem_map.mp hmem
        exact (List.find?_eq_none.mp hf b hb) (by simp [hbid])
      simp only [addBookManually, hv, hf, Bool.not_true, Bool.false_eq_true, if_false,
        Option.isSome_none, uniqueIds]
      exact nodup_snoc_bookId lib.books _ h hni

theorem addGoogleResult_uniqueIds (volumeId? : Option String)
    (info? : Option GoogleVolumeInfo) (now : Int) (lib : Library) (h : uniqueIds lib) :
    uniqueIds (match addBookFromGoogleBooks volumeId? info? now lib with
               | .ok l => l
               | .error _ => lib) := by
  cases volumeId? with
  | none => simp [addBookFromGoogleBooks]; exact h
  | some vid =>
    cases hf : lib.books.find? (fun b => b.bookId == some vid) with
    | some e => simp [addBookFromGoogleBooks, hf]; exact h
    | none =>
      cases info? with
      | none => simp [addBookFromGoogleBooks, hf]; exact h
      | some info =>
        have hni : (some vid : Option String) ∉ lib.books.map Book.bookId := by
          intro hmem
          obtain ⟨b, hb, hbid⟩ := List.mem_map.mp hmem
          exact (List.find?_eq_none.mp hf b hb) (by simp [hbid])
        simp only [addBookFromGoogleBooks, hf, Option.isSome_none, Bool.false_eq_true,
          if_false, uniqueIds]
        exact nodup_snoc_bookId lib.books _ h hni

theorem updateResult_uniqueIds (bid : Option String) (u : Updates) (lib : Library)
    (hid : u.bookId = none) (h : uniqueIds lib) :
    uniqueIds (match updateBook bid u lib with
               | .ok (l, _) => l
               | .error _ => lib) := by
  cases hf : lib.books.find? (fun b => b.bookId == bid) with
  | none => simp only [updateBook, hf]; exact h
  | some e =>
    simp only [updateBook, hf, uniqueIds]
    rw [updateFirst_map Book.bookId _ _
      (fun b => by simp [applyUpdates, applyKey, hid]) lib.books]
    exact h

theorem deleteResult_uniqueIds (bid : Option String) (hard : Bool) (lib : Library)
    (h : uniqueIds lib) :
    uniqueIds (match deleteBook bid hard lib with
               | .ok (l, _) => l
               | .error _ => lib) := by
  cases hf : lib.books.find? (fun b => b.bookId == bid) with
  | none => simp only [deleteBook, hf]; exact h
  | some e =>
    cases hard with
    | false => simp [deleteBook, hf]; exact h
    | true =>
      simp only [deleteBook, hf, if_true, uniqueIds]
      exact h.sublist ((removeFirst_sublist _ lib.books).map Book.bookId)

theorem applyOp_uniqueIds (op : Op) (lib : Library)
    (hok : opPreservesUniqueIds op = true) (h : uniqueIds lib) :
    uniqueIds (applyOp op lib) := by
  cases op with
  | importKindle batch now => exact kindleFold_nodup now batch lib.books _ h
  | importSelected batch now =>
    have hnd : (batch.map resolveId).Nodup := of_decide_eq_true hok
    exact selFold_nodup now (lib.books.map Book.bookId) batch { books := lib.books }
      hnd h (fun x hx => Or.inl hx)
  | addManual d now => exact addManualResult_uniqueIds d now lib h
  | addAmazon ext d now =>
    cases ext with
    | none => exact h
    | some a => exact addManualResult_uniqueIds d now lib h
  | addGoogle volumeId? info? now => exact addGoogleResult_uniqueIds volumeId? info? now lib h
  | updateOp bid u =>
    have h0 : (u.bookId == none) = true := hok
    exact updateResult_uniqueIds bid u lib (eq_of_beq h0) h
  | deleteOp bid hard => exact deleteResult_uniqueIds bid hard lib h
  | clearAll => simp [applyOp, clearAllBooks, uniqueIds]

/-- C1 (amended): starting from the empty collection, no two records ever
share a `bookId` across any sequence of operations in which every insert-only
batch carries pairwise-distinct resolved identifiers and no update map
contains the key `bookId`. (The unrestricted claim fails: an insert-only
batch repeating a new identifier inserts it twice, because the frozen
pre-batch snapshot never learns of in-batch inserts — see the
counterexample.) -/
theorem uniqueIds_invariant (ops : List Op)
    (hok : ∀ op ∈ ops, opPreservesUniqueIds op = true) :
    uniqueIds (applyOps ops emptyLibrary) := by
  suffices hgen : ∀ (l : List Op) (lib : Library),
      (∀ op ∈ l, opPreservesUniqueIds op = true) →
      uniqueIds lib → uniqueIds (applyOps l lib) by
    exact hgen ops emptyLibrary hok (by simp [uniqueIds, emptyLibrary])
  intro l
  induction l with
  | nil => intro lib _ h; exact h
  | cons op l ih =>
    intro lib hok2 h
    exact ih (applyOp op lib) (fun o ho => hok2 o (List.mem_cons_of_mem _ ho))
      (applyOp_uniqueIds op lib (hok2 op (List.mem_cons_self _ _)) h)

/-- C1 witness: a mixed sequence of operations keeps all identifiers
distinct. -/
theorem uniqueIds_invariant_witness :
    uniqueIds (applyOps
      [Op.addManual { bookId := some "B000000001", title := some "T" } 1,
       Op.importKindle [{ bookId := some "X1", title := some "T1" }] 2,
       Op.importSelected [{ bookId := some "Y1" }, { bookId := some "Y2" }] 3,
       Op.updateOp (some "X1") { title := some (some "T9") },
       Op.deleteOp (some "B000000001") true] emptyLibrary) :=
  uniqueIds_invariant
    [Op.addManual { bookId := some "B000000001", title := some "T" } 1,
     Op.importKindle [{ bookId := some "X1", title := some "T1" }] 2,
     Op.importSelected [{ bookId := some "Y1" }, { bookId := some "Y2" }] 3,
     Op.updateOp (some "X1") { title := some (some "T9") },
     Op.deleteOp (some "B000000001") true] (by decide)

/-- C1 counterexample: a single insert-only batch repeating one new
identifier leaves two records with the same `bookId` in the collection. -/
theorem uniqueIds_counterexample :
    ¬ uniqueIds (applyOps
      [Op.importSelected [{ bookId := some "B000000001", title := some "T" },
                          { bookId := some "B000000001", title := some "U" }] 1]
      emptyLibrary) := by
  unfold uniqueIds
  decide

/-! Section: C5: statistics consistency -/

theorem importKindleStep_countManual (now : Int) (books : List Book)
    (res : KindleImportResults) (c : RawBook) :
    countSource "manual_add" ((importKindleStep now (books, res) c).1)
      = countSource "manual_add" books := by
  cases hf : books.find? (fun b => b.bookId == resolveId c) with
  | some e =>
    cases hu : shouldUpdateBook e c with
    | true =>
      rw [importKindleStep_eq_update now books res c e hf hu]
      show countSource "manual_add" (updateFirst (fun b => b.bookId == resolveId c)
        (applyKindleUpdate c) books) = countSource "manual_add" books
      exact updateFirst_countP (fun b => b.source == some "manual_add")
        (fun b => b.bookId == resolveId c) (applyKindleUpdate c) (fun b => rfl) books
    | false =>
      rw [importKindleStep_eq_skip now books res c e hf hu]
  | none =>
    rw [importKindleStep_eq_insert now books res c hf]
    show countSource "manual_add" (books ++ [mkKindleBook c (resolveId c) now])
      = countSource "manual_add" books
    have hq : ((mkKindleBook c (resolveId c) now).source == some "manual_add") = false := rfl
    simp only [countSource, List.countP_append, List.countP_cons, List.countP_nil, hq]
    simp

theorem kindleFold_countManual (now : Int) (cs : List RawBook) (books : List Book)
    (res : KindleImportResults) :
    countSource "manual_add" ((cs.foldl (importKindleStep now) (books, res)).1)
      = countSource "manual_add" books := by
  induction cs generalizing books res with
  | nil => rfl
  | cons c cs ih =>
    simp only [List.foldl_cons]
    rw [ih (importKindleStep now (books, res) c).1 (importKindleStep now (books, res) c).2]
    exact importKindleStep_countManual now books res c

theorem addManualResult_stats (d : RawBook) (now : Int) (lib : Library)
    (hok : (d.source == some "kindle_import") = false) (h : statsConsistent lib) :
    statsConsistent (match addBookManually d now lib with
                     | .ok (l, _) => l
                     | .error _ => lib) := by
  cases hv : isValidBookId (jsOrS d.bookId d.asin) with
  | false => simp [addBookManually, hv]; exact h
  | true =>
    cases hf : lib.books.find? (fun b => b.bookId == jsOrS d.bookId d.asin) with
    | some e => simp [addBookManually, hv, hf]; exact h
    | none =>
      have hnb : ((jsOrS d.source (some "manual_add")) == some "kindle_import") = false := by
        unfold jsOrS
        cases htr : truthyS d.source with
        | true => simpa [htr] using hok
        | false => simp [htr]
      simp only [addBookManually, hv, hf, Bool.not_true, Bool.false_eq_true, if_false,
        Option.isSome_none, statsConsistent]
      refine ⟨trivial, trivial, ?_⟩
      simp only [countSource, List.countP_append, List.countP_cons, List.countP_nil, hnb]
      simpa [countSource] using h.2.2

theorem addGoogleResult_stats (volumeId? : Option String) (info? : Option GoogleVolumeInfo)
    (now : Int) (lib : Library) (h : statsConsistent lib) :
    statsConsistent (match addBookFromGoogleBooks volumeId? info? now lib with
                     | .ok l => l
                     | .error _ => lib) := by
  cases volumeId? with
  | none => simp [addBookFromGoogleBooks]; exact h
  | some vid =>
    cases hf : lib.books.find? (fun b => b.bookId == some vid) with
    | some e => simp [addBookFromGoogleBooks, hf]; exact h
    | none =>
      cases info? with
      | none => simp [addBookFromGoogleBooks, hf]; exact h
      | some info =>
        simp only [addBookFromGoogleBooks, hf, Option.isSome_none, Bool.false_eq_true,
          if_false, statsConsistent]
        have hman : ((fetchFromGoogleBooksById vid info now).source == some "manual_add")
            = false := rfl
        have hkin : ((fetchFromGoogleBooksById vid info now).source == some "kindle_import")
            = false := rfl
        refine ⟨by simp [h.1], ?_, ?_⟩
        · simp only [countSource, List.countP_append, List.countP_cons, List.countP_nil, hman]
          simpa [countSource] using h.2.1
        · simp only [countSource, List.countP_append, List.countP_cons, List.countP_nil, hkin]
          simpa [countSource] using h.2.2

theorem updateResult_stats (bid : Option String) (u : Updates) (lib : Library) :
    statsConsistent lib →
    statsConsistent (match updateBook bid u lib with
                     | .ok (l, _) => l
                     | .error _ => lib) := by
  intro h
  cases hf : lib.books.find? (fun b => b.bookId == bid) with
  | none => simp only [updateBook, hf]; exact h
  | some e =>
    simp only [updateBook, hf]
    exact ⟨rfl, rfl, rfl⟩

theorem deleteResult_stats (bid : Option String) (hard : Bool) (lib : Library) :
    statsConsistent lib →
    statsConsistent (match deleteBook bid hard lib with
                     | .ok (l, _) => l
                     | .error _ => lib) := by
  intro h
  cases hf : lib.books.find? (fun b => b.bookId == bid) with
  | none => simp only [deleteBook, hf]; exact h
  | some e =>
    cases hard with
    | false => simp [deleteBook, hf]; exact h
    | true =>
      simp only [deleteBook, hf, if_true]
      exact ⟨rfl, rfl, rfl⟩

theorem applyOp_stats (op : Op) (lib : Library)
    (hok : opPreservesStats op = true) (h : statsConsistent lib) :
    statsConsistent (applyOp op lib) := by
  cases op with
  | importKindle batch now =>
    refine ⟨rfl, ?_, rfl⟩
    show lib.metadata.manuallyAdded
      = countSource "manual_add" ((batch.foldl (importKindleStep now)
          (lib.books, { total := batch.length, added := 0, updated := 0, skipped := 0 })).1)
    rw [kindleFold_countManual now batch lib.books _]
    exact h.2.1
  | importSelected batch now => exact ⟨rfl, rfl, rfl⟩
  | addManual d now =>
    exact addManualResult_stats d now lib (by simpa [opPreservesStats] using hok) h
  | addAmazon ext d now =>
    cases ext with
    | none => exact h
    | some a => exact addManualResult_stats d now lib (by simpa [opPreservesStats] using hok) h
  | addGoogle volumeId? info? now => exact addGoogleResult_stats volumeId? info? now lib h
  | updateOp bid u => exact updateResult_stats bid u lib h
  | deleteOp bid hard => exact deleteResult_stats bid hard lib h
  | clearAll => exact ⟨rfl, rfl, rfl⟩

/-- C5 (amended): starting from the empty collection, after every operation
in any sequence, `metadata.totalBooks` equals the number of records,
`metadata.manuallyAdded` the number of records with source `manual_add`, and
`metadata.importedFromKindle` the number of records with the bulk-import
source `kindle_import` — provided no manual add (direct or via marketplace
link) carries the caller-supplied source override `kindle_import`, since
`addBookManually` never recomputes `importedFromKindle`. (The unrestricted
claim fails: see the counterexample.) -/
theorem statsConsistent_invariant (ops : List Op)
    (hok : ∀ op ∈ ops, opPreservesStats op = true) :
    statsConsistent (applyOps ops emptyLibrary) := by
  suffices hgen : ∀ (l : List Op) (lib : Library),
      (∀ op ∈ l, opPreservesStats op = true) →
      statsConsistent lib → statsConsistent (applyOps l lib) by
    exact hgen ops emptyLibrary hok ⟨rfl, rfl, rfl⟩
  intro l
  induction l with
  | nil => intro lib _ h; exact h
  | cons op l ih =>
    intro lib hok2 h
    exact ih (applyOp op lib) (fun o ho => hok2 o (List.mem_cons_of_mem _ ho))
      (applyOp_stats op lib (hok2 op (List.mem_cons_self _ _)) h)

/-- C5 witness: a mixed sequence of operations keeps the three counters
consistent with the record sequence. -/
theorem statsConsistent_invariant_witness :
    statsConsistent (applyOps
      [Op.addManual { bookId := some "B000000001", title := some "T" } 1,
       Op.importKindle [{ bookId := some "X1", title := some "T1" }] 2,
       Op.addGoogle (some "gvol123456") (some { title := some "G" }) 3,
       Op.importSelected [{ bookId := some "Y1" }] 4,
       Op.updateOp (some "X1") { source := some (some "manual_add") },
       Op.deleteOp (some "B000000001") true] emptyLibrary) :=
  statsConsistent_invariant
    [Op.addManual { bookId := some "B000000001", title := some "T" } 1,
     Op.importKindle [{ bookId := some "X1", title := some "T1" }] 2,
     Op.addGoogle (some "gvol123456") (some { title := some "G" }) 3,
     Op.importSelected [{ bookId := some "Y1" }] 4,
     Op.updateOp (some "X1") { source := some (some "manual_add") },
     Op.deleteOp (some "B000000001") true] (by decide)

/-- C5 counterexample: a manual add carrying the caller-supplied source
`kindle_import` leaves `metadata.importedFromKindle` stale (0) while one
record with that source exists. -/
theorem statsConsistent_counterexample :
    ¬ statsConsistent (applyOps
      [Op.addManual { bookId := some "B000000001", source := some "kindle_import" } 1]
      emptyLibrary) := by
  unfold statsConsistent
  decide

end VirtualBookshelf
